import Mathlib

/-!
Verification of the FTXUI window widget (`src/ftxui/component/window.cpp`).

The file shallowly embeds the pieces of the source the claims are about:

* `Box` with its `Contain` test (inclusive bounds, as in FTXUI's `Box`);
* `WindowState.onEvent`, a pure transcription of `WindowImpl::OnEvent`
  (mouse hover bookkeeping, the captured drag/resize branch with its
  clamping, and the gesture-start branch).  Field names follow the C++
  member names (`box_`, `drag_`, `captured_mouse_`, ...).  The outcome of
  the two `CaptureMouse` calls and of the inner child's event handling are
  environment inputs (`Env`), since the screen and the child are external
  collaborators;
* the two shadow sweeps of `DropShadowDecorator::Render` as explicit lists
  of painted cells;
* `PositionAndSize` over a minimal visual semantics for the element
  combinators it uses (those combinators live outside this repository).
-/

/-- FTXUI `Box`: rectangle with inclusive bounds. -/
structure Box where
  x_min : Int
  x_max : Int
  y_min : Int
  y_max : Int
deriving Repr, DecidableEq

/-- Source `Box::Contain(int x, int y)`:
`x_min <= x && x <= x_max && y_min <= y && y <= y_max`. -/
def Box.Contain (b : Box) (x y : Int) : Bool :=
  decide (b.x_min ≤ x) && decide (x ≤ b.x_max) &&
  decide (b.y_min ≤ y) && decide (y ≤ b.y_max)

/-- The `Mouse::Motion` kind of the pointer-event type. -/
inductive Motion where
  | Pressed
  | Released
  | Moved
deriving Repr, DecidableEq

/-- The `Mouse::Button` kind of the pointer-event type. -/
inductive Button where
  | Left
  | Middle
  | Right
  | NoButton
  | WheelUp
  | WheelDown
deriving Repr, DecidableEq

/-- A mouse event: `{x, y, button, motion}`. -/
structure Mouse where
  x : Int
  y : Int
  button : Button
  motion : Motion
deriving Repr, DecidableEq

/-- An FTXUI `Event`, restricted to what `WindowImpl::OnEvent` inspects:
either a mouse event or any non-mouse event (`event.is_mouse()` false). -/
inductive Event where
  | mouse (m : Mouse)
  | other
deriving Repr, DecidableEq

/-- Per-event environment: whether the inner child consumed the event in
`ComponentBase::OnEvent`, and whether the screen grants exclusive mouse
capture (`CaptureMouse` returns a non-null token).  Both calls to
`CaptureMouse` inside one synchronous handler observe the same screen
state, hence a single flag. -/
structure Env where
  childHandled : Bool
  captureOk : Bool
deriving Repr, DecidableEq

/-- The mutable state of `WindowImpl`, fields named as in the C++ class
(`WindowOptions` fields first, then the private members). -/
structure WindowState where
  left : Int
  top : Int
  width : Int
  height : Int
  title : String
  resize : Bool
  box_ : Box
  box_window_ : Box
  captured_mouse_ : Bool
  drag_start_x : Int
  drag_start_y : Int
  resize_start_x : Int
  resize_start_y : Int
  mouse_hover_ : Bool
  drag_ : Bool
  resize_bottom_right_ : Bool
  resize_bottom_right_hover_ : Bool
deriving Repr, DecidableEq

/-- Lines 122-131: recompute `mouse_hover_` and
`resize_bottom_right_hover_` from the pointer position. -/
def updateHover (s : WindowState) (m : Mouse) : WindowState :=
  let mh := s.box_window_.Contain m.x m.y
  { s with
    mouse_hover_ := mh
    resize_bottom_right_hover_ :=
      if mh then
        (decide (m.x = s.box_window_.x_max) && decide (m.y = s.box_window_.y_max))
          && s.resize
      else false }

/-- Lines 133-154: the branch taken while `captured_mouse_` holds a token:
release drops the token; any other motion recomputes the geometry from the
press-time snapshots and then clamps width/height. -/
def capturedStep (s : WindowState) (m : Mouse) : Bool × WindowState :=
  if m.motion = Motion.Released then
    (true, { s with captured_mouse_ := false })
  else
    let s2 :=
      if s.resize_bottom_right_ then
        { s with
          width := m.x - s.resize_start_x - s.box_.x_min
          height := m.y - s.resize_start_y - s.box_.y_min }
      else s
    let s3 :=
      if s2.drag_ then
        { s2 with
          left := m.x - s2.drag_start_x - s2.box_.x_min
          top := m.y - s2.drag_start_y - s2.box_.y_min }
      else s2
    (true, { s3 with
      width := max s3.width ((s3.title.length : Int) + 2)
      height := max s3.height 2 })

/-- Lines 156-187: the branch taken while no gesture is active: clear the
resize flag, pass through when outside, consume when capture fails or the
event is not a left press, otherwise snapshot the offsets and start the
gesture. -/
def uncapturedStep (s : WindowState) (env : Env) (m : Mouse) : Bool × WindowState :=
  let s1 := { s with resize_bottom_right_ := false }
  if s1.mouse_hover_ = false then
    (false, s1)
  else if env.captureOk = false then
    (true, s1)
  else if ¬(m.button = Button.Left ∧ m.motion = Motion.Pressed) then
    (true, s1)
  else if env.captureOk = false then
    (true, s1)
  else
    let s2 := { s1 with
      captured_mouse_ := true
      resize_bottom_right_ := s1.resize_bottom_right_hover_ }
    let s3 := { s2 with
      resize_start_x := m.x - s2.width - s2.box_.x_min
      resize_start_y := m.y - s2.height - s2.box_.y_min
      drag_start_x := m.x - s2.left - s2.box_.x_min
      drag_start_y := m.y - s2.top - s2.box_.y_min }
    (true, { s3 with drag_ := !s3.resize_bottom_right_ })

/-- Transcription of `WindowImpl::OnEvent` (lines 113-188) as a pure transition: returns the
handled flag and the successor state. -/
def WindowState.onEvent (s : WindowState) (env : Env) (e : Event) : Bool × WindowState :=
  if env.childHandled then
    (true, s)
  else
    match e with
    | Event.other => (false, s)
    | Event.mouse m =>
      let s1 := updateHover s m
      if s1.captured_mouse_ then capturedStep s1 m else uncapturedStep s1 env m

/-- Fold a list of (environment, event) pairs through `onEvent`. -/
def runEvents (s : WindowState) (evs : List (Env × Event)) : WindowState :=
  evs.foldl (fun s p => (s.onEvent p.1 p.2).2) s

/-- Last element of a list, with a default: the pointer position after a
list of motions. -/
def lastD : List (Int × Int) → (Int × Int) → (Int × Int)
  | [], d => d
  | q :: t, _ => lastD t q

/-- Environment in which the child does not consume the event and capture
is granted. -/
def okEnv : Env := ⟨false, true⟩

/-- Environment in which the child does not consume the event and capture
acquisition fails. -/
def failEnv : Env := ⟨false, false⟩

/-- A left-button press event at a position. -/
def mkPress (p : Int × Int) : Event := Event.mouse ⟨p.1, p.2, Button.Left, Motion.Pressed⟩

/-- A left-button motion event at a position. -/
def mkMoved (p : Int × Int) : Event := Event.mouse ⟨p.1, p.2, Button.Left, Motion.Moved⟩

/-- A left-button release event at a position. -/
def mkReleased (p : Int × Int) : Event := Event.mouse ⟨p.1, p.2, Button.Left, Motion.Released⟩

/-- A left press landing inside `box_window_` while no gesture is active,
with capture granted, starts a gesture: capture is taken, the handle-hover
value `r` becomes the resize flag, the drag flag its negation, and the four
press-time offsets are snapshotted.  Geometry, title and boxes are
untouched. -/
theorem pressStep (s : WindowState) (p : Int × Int) (r : Bool)
    (hc : s.captured_mouse_ = false)
    (hin : s.box_window_.Contain p.1 p.2 = true)
    (hrb : ((decide (p.1 = s.box_window_.x_max) && decide (p.2 = s.box_window_.y_max))
        && s.resize) = r) :
    (s.onEvent okEnv (mkPress p)).1 = true ∧
    (s.onEvent okEnv (mkPress p)).2 =
      { s with
        mouse_hover_ := true
        resize_bottom_right_hover_ := r
        captured_mouse_ := true
        resize_bottom_right_ := r
        resize_start_x := p.1 - s.width - s.box_.x_min
        resize_start_y := p.2 - s.height - s.box_.y_min
        drag_start_x := p.1 - s.left - s.box_.x_min
        drag_start_y := p.2 - s.top - s.box_.y_min
        drag_ := !r } := by
  subst hrb
  simp [WindowState.onEvent, okEnv, mkPress, updateHover, uncapturedStep, hc, hin]

/-- A non-release mouse event while a drag gesture is captured moves the
window to the pointer position minus the press-time offset minus `box_`'s
origin, clamps width/height, and leaves the gesture bookkeeping alone. -/
theorem dragMoveStep (s : WindowState) (q : Int × Int)
    (hc : s.captured_mouse_ = true) (hd : s.drag_ = true)
    (hr : s.resize_bottom_right_ = false) :
    (s.onEvent okEnv (mkMoved q)).1 = true ∧
    (s.onEvent okEnv (mkMoved q)).2.captured_mouse_ = true ∧
    (s.onEvent okEnv (mkMoved q)).2.drag_ = true ∧
    (s.onEvent okEnv (mkMoved q)).2.resize_bottom_right_ = false ∧
    (s.onEvent okEnv (mkMoved q)).2.drag_start_x = s.drag_start_x ∧
    (s.onEvent okEnv (mkMoved q)).2.drag_start_y = s.drag_start_y ∧
    (s.onEvent okEnv (mkMoved q)).2.resize_start_x = s.resize_start_x ∧
    (s.onEvent okEnv (mkMoved q)).2.resize_start_y = s.resize_start_y ∧
    (s.onEvent okEnv (mkMoved q)).2.box_ = s.box_ ∧
    (s.onEvent okEnv (mkMoved q)).2.box_window_ = s.box_window_ ∧
    (s.onEvent okEnv (mkMoved q)).2.title = s.title ∧
    (s.onEvent okEnv (mkMoved q)).2.resize = s.resize ∧
    (s.onEvent okEnv (mkMoved q)).2.left = q.1 - s.drag_start_x - s.box_.x_min ∧
    (s.onEvent okEnv (mkMoved q)).2.top = q.2 - s.drag_start_y - s.box_.y_min ∧
    (s.onEvent okEnv (mkMoved q)).2.width = max s.width ((s.title.length : Int) + 2) ∧
    (s.onEvent okEnv (mkMoved q)).2.height = max s.height 2 := by
  simp [WindowState.onEvent, okEnv, mkMoved, updateHover, capturedStep, hc, hd, hr]

/-- A non-release mouse event while a resize gesture is captured sets
width/height from the pointer position and the press-time offsets, then
clamps them; left/top and the gesture bookkeeping are untouched. -/
theorem resizeMoveStep (s : WindowState) (q : Int × Int)
    (hc : s.captured_mouse_ = true) (hd : s.drag_ = false)
    (hr : s.resize_bottom_right_ = true) :
    (s.onEvent okEnv (mkMoved q)).1 = true ∧
    (s.onEvent okEnv (mkMoved q)).2.captured_mouse_ = true ∧
    (s.onEvent okEnv (mkMoved q)).2.drag_ = false ∧
    (s.onEvent okEnv (mkMoved q)).2.resize_bottom_right_ = true ∧
    (s.onEvent okEnv (mkMoved q)).2.drag_start_x = s.drag_start_x ∧
    (s.onEvent okEnv (mkMoved q)).2.drag_start_y = s.drag_start_y ∧
    (s.onEvent okEnv (mkMoved q)).2.resize_start_x = s.resize_start_x ∧
    (s.onEvent okEnv (mkMoved q)).2.resize_start_y = s.resize_start_y ∧
    (s.onEvent okEnv (mkMoved q)).2.box_ = s.box_ ∧
    (s.onEvent okEnv (mkMoved q)).2.box_window_ = s.box_window_ ∧
    (s.onEvent okEnv (mkMoved q)).2.title = s.title ∧
    (s.onEvent okEnv (mkMoved q)).2.resize = s.resize ∧
    (s.onEvent okEnv (mkMoved q)).2.left = s.left ∧
    (s.onEvent okEnv (mkMoved q)).2.top = s.top ∧
    (s.onEvent okEnv (mkMoved q)).2.width
      = max (q.1 - s.resize_start_x - s.box_.x_min) ((s.title.length : Int) + 2) ∧
    (s.onEvent okEnv (mkMoved q)).2.height
      = max (q.2 - s.resize_start_y - s.box_.y_min) 2 := by
  simp [WindowState.onEvent, okEnv, mkMoved, updateHover, capturedStep, hc, hd, hr]

/-- A release while captured (lines 133-137) drops the capture token and
returns handled; every field other than the token and the two hover flags
is preserved — in particular the gesture flags are not cleared here. -/
theorem releaseStep (s : WindowState) (env : Env) (m : Mouse)
    (hch : env.childHandled = false)
    (hc : s.captured_mouse_ = true) (hm : m.motion = Motion.Released) :
    (s.onEvent env (Event.mouse m)).1 = true ∧
    (s.onEvent env (Event.mouse m)).2.captured_mouse_ = false ∧
    (s.onEvent env (Event.mouse m)).2.drag_ = s.drag_ ∧
    (s.onEvent env (Event.mouse m)).2.resize_bottom_right_ = s.resize_bottom_right_ ∧
    (s.onEvent env (Event.mouse m)).2.drag_start_x = s.drag_start_x ∧
    (s.onEvent env (Event.mouse m)).2.drag_start_y = s.drag_start_y ∧
    (s.onEvent env (Event.mouse m)).2.resize_start_x = s.resize_start_x ∧
    (s.onEvent env (Event.mouse m)).2.resize_start_y = s.resize_start_y ∧
    (s.onEvent env (Event.mouse m)).2.box_ = s.box_ ∧
    (s.onEvent env (Event.mouse m)).2.box_window_ = s.box_window_ ∧
    (s.onEvent env (Event.mouse m)).2.title = s.title ∧
    (s.onEvent env (Event.mouse m)).2.resize = s.resize ∧
    (s.onEvent env (Event.mouse m)).2.left = s.left ∧
    (s.onEvent env (Event.mouse m)).2.top = s.top ∧
    (s.onEvent env (Event.mouse m)).2.width = s.width ∧
    (s.onEvent env (Event.mouse m)).2.height = s.height := by
  simp [WindowState.onEvent, updateHover, capturedStep, hch, hc, hm]

/-- Running a list of motion events during a captured drag keeps the
gesture bookkeeping fixed and leaves the window at the last motion's
position minus the snapshotted offset; the parameter `p` names any
position consistent with the current left/top. -/
theorem dragMovesRun (moves : List (Int × Int)) :
    ∀ (s : WindowState) (p : Int × Int),
    s.captured_mouse_ = true → s.drag_ = true → s.resize_bottom_right_ = false →
    s.left = p.1 - s.drag_start_x - s.box_.x_min →
    s.top = p.2 - s.drag_start_y - s.box_.y_min →
    (runEvents s (moves.map (fun q => (okEnv, mkMoved q)))).captured_mouse_ = true ∧
    (runEvents s (moves.map (fun q => (okEnv, mkMoved q)))).drag_ = true ∧
    (runEvents s (moves.map (fun q => (okEnv, mkMoved q)))).resize_bottom_right_ = false ∧
    (runEvents s (moves.map (fun q => (okEnv, mkMoved q)))).drag_start_x = s.drag_start_x ∧
    (runEvents s (moves.map (fun q => (okEnv, mkMoved q)))).drag_start_y = s.drag_start_y ∧
    (runEvents s (moves.map (fun q => (okEnv, mkMoved q)))).box_ = s.box_ ∧
    (runEvents s (moves.map (fun q => (okEnv, mkMoved q)))).left
      = (lastD moves p).1 - s.drag_start_x - s.box_.x_min ∧
    (runEvents s (moves.map (fun q => (okEnv, mkMoved q)))).top
      = (lastD moves p).2 - s.drag_start_y - s.box_.y_min := by
  induction moves with
  | nil =>
    intro s p hc hd hr hl ht
    simp [runEvents, lastD]
    exact ⟨hc, hd, hr, hl, ht⟩
  | cons q t ih =>
    intro s p hc hd hr hl ht
    obtain ⟨-, h1, h2, h3, h4, h5, -, -, hb, -, -, -, hql, hqt, -, -⟩ :=
      dragMoveStep s q hc hd hr
    have hstep :
        runEvents s ((q :: t).map (fun q => (okEnv, mkMoved q)))
          = runEvents ((s.onEvent okEnv (mkMoved q)).2)
              (t.map (fun q => (okEnv, mkMoved q))) := by
      simp [runEvents]
    rw [hstep]
    have := ih ((s.onEvent okEnv (mkMoved q)).2) q h1 h2 h3
      (by rw [hql, h4, hb]) (by rw [hqt, h5, hb])
    rw [h4, h5, hb] at this
    simpa [lastD] using this

/-- Running a list of motion events during a captured resize keeps the
gesture bookkeeping (flags, snapshots, boxes, title) fixed. -/
theorem resizeMovesRun (moves : List (Int × Int)) :
    ∀ (s : WindowState),
    s.captured_mouse_ = true → s.drag_ = false → s.resize_bottom_right_ = true →
    (runEvents s (moves.map (fun q => (okEnv, mkMoved q)))).captured_mouse_ = true ∧
    (runEvents s (moves.map (fun q => (okEnv, mkMoved q)))).drag_ = false ∧
    (runEvents s (moves.map (fun q => (okEnv, mkMoved q)))).resize_bottom_right_ = true ∧
    (runEvents s (moves.map (fun q => (okEnv, mkMoved q)))).resize_start_x = s.resize_start_x ∧
    (runEvents s (moves.map (fun q => (okEnv, mkMoved q)))).resize_start_y = s.resize_start_y ∧
    (runEvents s (moves.map (fun q => (okEnv, mkMoved q)))).box_ = s.box_ ∧
    (runEvents s (moves.map (fun q => (okEnv, mkMoved q)))).title = s.title := by
  induction moves with
  | nil =>
    intro s hc hd hr
    simpa [runEvents] using ⟨hc, hd, hr⟩
  | cons q t ih =>
    intro s hc hd hr
    obtain ⟨-, h1, h2, h3, -, -, h6, h7, hb, -, hti, -, -, -, -, -⟩ :=
      resizeMoveStep s q hc hd hr
    have hstep :
        runEvents s ((q :: t).map (fun q => (okEnv, mkMoved q)))
          = runEvents ((s.onEvent okEnv (mkMoved q)).2)
              (t.map (fun q => (okEnv, mkMoved q))) := by
      simp [runEvents]
    rw [hstep]
    have := ih ((s.onEvent okEnv (mkMoved q)).2) h1 h2 h3
    rw [h6, h7, hb, hti] at this
    exact this

/-- C1: for every press-drag-release sequence whose press lands inside the
window (`box_window_`) but not on the bottom-right resize handle, the final
(left, top) equals the initial (left, top) plus the total pointer
displacement accumulated through the motion events (the position of the
last motion, `lastD moves press`, minus the press position), for any
number and granularity of intermediate motions: the press-time offset
`drag_start` is snapshotted once and reused, never recomputed. -/
theorem drag_gesture_net_displacement (s : WindowState) (press : Int × Int)
    (moves : List (Int × Int)) (rel : Int × Int)
    (hc : s.captured_mouse_ = false)
    (hin : s.box_window_.Contain press.1 press.2 = true)
    (hnot : ¬(press.1 = s.box_window_.x_max ∧ press.2 = s.box_window_.y_max
        ∧ s.resize = true)) :
    (runEvents s (((okEnv, mkPress press) :: moves.map (fun q => (okEnv, mkMoved q)))
        ++ [(okEnv, mkReleased rel)])).left
      = s.left + ((lastD moves press).1 - press.1) ∧
    (runEvents s (((okEnv, mkPress press) :: moves.map (fun q => (okEnv, mkMoved q)))
        ++ [(okEnv, mkReleased rel)])).top
      = s.top + ((lastD moves press).2 - press.2) := by
  have hr : ((decide (press.1 = s.box_window_.x_max)
      && decide (press.2 = s.box_window_.y_max)) && s.resize) = false := by
    rcases Bool.eq_false_or_eq_true
      (((decide (press.1 = s.box_window_.x_max)
        && decide (press.2 = s.box_window_.y_max)) && s.resize)) with h | h
    · simp only [Bool.and_eq_true, decide_eq_true_eq] at h
      exact absurd ⟨h.1.1, h.1.2, h.2⟩ hnot
    · exact h
  obtain ⟨-, hps⟩ := pressStep s press false hc hin hr
  have hsplit :
      runEvents s (((okEnv, mkPress press) :: moves.map (fun q => (okEnv, mkMoved q)))
          ++ [(okEnv, mkReleased rel)])
        = ((runEvents ((s.onEvent okEnv (mkPress press)).2)
              (moves.map (fun q => (okEnv, mkMoved q)))).onEvent
            okEnv (mkReleased rel)).2 := by
    simp [runEvents, List.foldl_append]
  have h1 : (s.onEvent okEnv (mkPress press)).2.captured_mouse_ = true := by rw [hps]
  have h2 : (s.onEvent okEnv (mkPress press)).2.drag_ = true := by rw [hps]; rfl
  have h3 : (s.onEvent okEnv (mkPress press)).2.resize_bottom_right_ = false := by rw [hps]
  have h4 : (s.onEvent okEnv (mkPress press)).2.drag_start_x
      = press.1 - s.left - s.box_.x_min := by rw [hps]
  have h5 : (s.onEvent okEnv (mkPress press)).2.drag_start_y
      = press.2 - s.top - s.box_.y_min := by rw [hps]
  have h6 : (s.onEvent okEnv (mkPress press)).2.box_ = s.box_ := by rw [hps]
  have h7 : (s.onEvent okEnv (mkPress press)).2.left = s.left := by rw [hps]
  have h8 : (s.onEvent okEnv (mkPress press)).2.top = s.top := by rw [hps]
  obtain ⟨hcap2, hd2, hr2, hdsx2, hdsy2, hb2, hl2, ht2⟩ :=
    dragMovesRun moves ((s.onEvent okEnv (mkPress press)).2) press h1 h2 h3
      (by rw [h7, h4, h6]; omega) (by rw [h8, h5, h6]; omega)
  obtain ⟨-, -, -, -, -, -, -, -, -, -, -, -, hl3, ht3, -, -⟩ :=
    releaseStep (runEvents ((s.onEvent okEnv (mkPress press)).2)
        (moves.map (fun q => (okEnv, mkMoved q))))
      okEnv ⟨rel.1, rel.2, Button.Left, Motion.Released⟩ rfl hcap2 rfl
  rw [hsplit]
  have hmk : mkReleased rel = Event.mouse ⟨rel.1, rel.2, Button.Left, Motion.Released⟩ := rfl
  rw [hmk, hl3, ht3, hl2, ht2, h4, h5, h6]
  constructor <;> omega

/-- C2: for every press landing exactly on the bottom-right handle cell of
`box_window_` with the resize flag enabled, every motion event (here: the
last event `q` after an arbitrary earlier motion list) sets width/height to
the press-time values plus the pointer displacement computed from the
offset snapshotted at press, clamped so that width ≥ title length + 2 and
height ≥ 2 always hold afterwards. -/
theorem resize_gesture_tracks_and_clamps (s : WindowState)
    (moves : List (Int × Int)) (q : Int × Int)
    (hc : s.captured_mouse_ = false) (hres : s.resize = true)
    (hx : s.box_window_.x_min ≤ s.box_window_.x_max)
    (hy : s.box_window_.y_min ≤ s.box_window_.y_max) :
    (runEvents s ((okEnv, mkPress (s.box_window_.x_max, s.box_window_.y_max))
        :: (moves ++ [q]).map (fun r => (okEnv, mkMoved r)))).width
      = max (s.width + (q.1 - s.box_window_.x_max)) ((s.title.length : Int) + 2) ∧
    (runEvents s ((okEnv, mkPress (s.box_window_.x_max, s.box_window_.y_max))
        :: (moves ++ [q]).map (fun r => (okEnv, mkMoved r)))).height
      = max (s.height + (q.2 - s.box_window_.y_max)) 2 ∧
    ((s.title.length : Int) + 2)
      ≤ (runEvents s ((okEnv, mkPress (s.box_window_.x_max, s.box_window_.y_max))
          :: (moves ++ [q]).map (fun r => (okEnv, mkMoved r)))).width ∧
    2 ≤ (runEvents s ((okEnv, mkPress (s.box_window_.x_max, s.box_window_.y_max))
        :: (moves ++ [q]).map (fun r => (okEnv, mkMoved r)))).height := by
  have hin : s.box_window_.Contain s.box_window_.x_max s.box_window_.y_max = true := by
    simp [Box.Contain, hx, hy]
  have hr : ((decide ((s.box_window_.x_max, s.box_window_.y_max).1 = s.box_window_.x_max)
      && decide ((s.box_window_.x_max, s.box_window_.y_max).2 = s.box_window_.y_max))
      && s.resize) = true := by
    simp [hres]
  obtain ⟨-, hps⟩ :=
    pressStep s (s.box_window_.x_max, s.box_window_.y_max) true hc hin hr
  have hsplit :
      runEvents s ((okEnv, mkPress (s.box_window_.x_max, s.box_window_.y_max))
          :: (moves ++ [q]).map (fun r => (okEnv, mkMoved r)))
        = ((runEvents ((s.onEvent okEnv
              (mkPress (s.box_window_.x_max, s.box_window_.y_max))).2)
            (moves.map (fun r => (okEnv, mkMoved r)))).onEvent
          okEnv (mkMoved q)).2 := by
    simp [runEvents, List.foldl_append]
  have h1 : (s.onEvent okEnv
      (mkPress (s.box_window_.x_max, s.box_window_.y_max))).2.captured_mouse_ = true := by
    rw [hps]
  have h2 : (s.onEvent okEnv
      (mkPress (s.box_window_.x_max, s.box_window_.y_max))).2.drag_ = false := by
    rw [hps]; rfl
  have h3 : (s.onEvent okEnv
      (mkPress (s.box_window_.x_max, s.box_window_.y_max))).2.resize_bottom_right_
      = true := by
    rw [hps]
  have h4 : (s.onEvent okEnv
      (mkPress (s.box_window_.x_max, s.box_window_.y_max))).2.resize_start_x
      = s.box_window_.x_max - s.width - s.box_.x_min := by rw [hps]
  have h5 : (s.onEvent okEnv
      (mkPress (s.box_window_.x_max, s.box_window_.y_max))).2.resize_start_y
      = s.box_window_.y_max - s.height - s.box_.y_min := by rw [hps]
  have h6 : (s.onEvent okEnv
      (mkPress (s.box_window_.x_max, s.box_window_.y_max))).2.box_ = s.box_ := by rw [hps]
  have h7 : (s.onEvent okEnv
      (mkPress (s.box_window_.x_max, s.box_window_.y_max))).2.title = s.title := by rw [hps]
  obtain ⟨hcap2, hd2, hr2, hrsx2, hrsy2, hb2, hti2⟩ :=
    resizeMovesRun moves ((s.onEvent okEnv
        (mkPress (s.box_window_.x_max, s.box_window_.y_max))).2) h1 h2 h3
  obtain ⟨-, -, -, -, -, -, -, -, -, -, -, -, -, -, hw3, hh3⟩ :=
    resizeMoveStep (runEvents ((s.onEvent okEnv
        (mkPress (s.box_window_.x_max, s.box_window_.y_max))).2)
      (moves.map (fun r => (okEnv, mkMoved r)))) q hcap2 hd2 hr2
  rw [hsplit, hw3, hh3, hrsx2, hrsy2, hb2, hti2, h4, h5, h6, h7]
  clear hw3 hh3 hps hsplit
  refine ⟨?_, ?_, ?_, ?_⟩ <;> omega

/-- A concrete idle window: `title = "Hi"` (length 2), geometry
(5, 3, 10, 5), resize enabled, inner box `box_` spanning (0,0)-(30,15) and
decorated box `box_window_` spanning (2,1)-(20,10). -/
def s0 : WindowState :=
  { left := 5, top := 3, width := 10, height := 5, title := "Hi", resize := true,
    box_ := ⟨0, 30, 0, 15⟩, box_window_ := ⟨2, 20, 1, 10⟩,
    captured_mouse_ := false, drag_start_x := 0, drag_start_y := 0,
    resize_start_x := 0, resize_start_y := 0, mouse_hover_ := false,
    drag_ := false, resize_bottom_right_ := false, resize_bottom_right_hover_ := false }

/-- Witness for `drag_gesture_net_displacement`: drag `s0` from (5,5)
through (8,9) to (3,4), release at (3,4). -/
theorem drag_gesture_net_displacement_witness :
    s0.captured_mouse_ = false ∧
    s0.box_window_.Contain (5, 5).1 (5, 5).2 = true ∧
    ¬((5, 5).1 = s0.box_window_.x_max ∧ (5, 5).2 = s0.box_window_.y_max
        ∧ s0.resize = true) ∧
    ((runEvents s0 (((okEnv, mkPress (5, 5))
        :: ([(8, 9), (3, 4)] : List (Int × Int)).map (fun q => (okEnv, mkMoved q)))
        ++ [(okEnv, mkReleased (3, 4))])).left
      = s0.left + ((lastD [(8, 9), (3, 4)] (5, 5)).1 - (5, 5).1) ∧
     (runEvents s0 (((okEnv, mkPress (5, 5))
        :: ([(8, 9), (3, 4)] : List (Int × Int)).map (fun q => (okEnv, mkMoved q)))
        ++ [(okEnv, mkReleased (3, 4))])).top
      = s0.top + ((lastD [(8, 9), (3, 4)] (5, 5)).2 - (5, 5).2)) :=
  ⟨by decide, by decide, by decide,
   drag_gesture_net_displacement s0 (5, 5) [(8, 9), (3, 4)] (3, 4)
     (by decide) (by decide) (by decide)⟩

/-- Witness for `resize_gesture_tracks_and_clamps`: press the handle cell
(20,10) of `s0`, move to (25,12), then to (1,1); the final width/height are
clamped to the minimums 4 and 2. -/
theorem resize_gesture_tracks_and_clamps_witness :
    s0.captured_mouse_ = false ∧ s0.resize = true ∧
    s0.box_window_.x_min ≤ s0.box_window_.x_max ∧
    s0.box_window_.y_min ≤ s0.box_window_.y_max ∧
    ((runEvents s0 ((okEnv, mkPress (s0.box_window_.x_max, s0.box_window_.y_max))
        :: (([(25, 12)] : List (Int × Int)) ++ [(1, 1)]).map
          (fun r => (okEnv, mkMoved r)))).width
      = max (s0.width + ((1, 1).1 - s0.box_window_.x_max)) ((s0.title.length : Int) + 2) ∧
     (runEvents s0 ((okEnv, mkPress (s0.box_window_.x_max, s0.box_window_.y_max))
        :: (([(25, 12)] : List (Int × Int)) ++ [(1, 1)]).map
          (fun r => (okEnv, mkMoved r)))).height
      = max (s0.height + ((1, 1).2 - s0.box_window_.y_max)) 2 ∧
     ((s0.title.length : Int) + 2)
      ≤ (runEvents s0 ((okEnv, mkPress (s0.box_window_.x_max, s0.box_window_.y_max))
          :: (([(25, 12)] : List (Int × Int)) ++ [(1, 1)]).map
            (fun r => (okEnv, mkMoved r)))).width ∧
     2 ≤ (runEvents s0 ((okEnv, mkPress (s0.box_window_.x_max, s0.box_window_.y_max))
        :: (([(25, 12)] : List (Int × Int)) ++ [(1, 1)]).map
          (fun r => (okEnv, mkMoved r)))).height) :=
  ⟨by decide, by decide, by decide, by decide,
   resize_gesture_tracks_and_clamps s0 [(25, 12)] (1, 1)
     (by decide) (by decide) (by decide) (by decide)⟩

/-- With the child not handling the event, `OnEvent` on a mouse event is
the hover update followed by the captured or uncaptured branch. -/
theorem onEvent_mouse_eq (s : WindowState) (env : Env) (m : Mouse)
    (hch : env.childHandled = false) :
    s.onEvent env (Event.mouse m) =
      (if (updateHover s m).captured_mouse_ then capturedStep (updateHover s m) m
       else uncapturedStep (updateHover s m) env m) := by
  simp [WindowState.onEvent, hch]

/-- The captured branch `capturedStep` never touches the gesture flags, the press-time
snapshots, the boxes, the title or the resize option, and always consumes
the event. -/
theorem capturedStep_core (s : WindowState) (m : Mouse) :
    (capturedStep s m).1 = true ∧
    (capturedStep s m).2.title = s.title ∧
    (capturedStep s m).2.resize = s.resize ∧
    (capturedStep s m).2.drag_ = s.drag_ ∧
    (capturedStep s m).2.resize_bottom_right_ = s.resize_bottom_right_ ∧
    (capturedStep s m).2.drag_start_x = s.drag_start_x ∧
    (capturedStep s m).2.drag_start_y = s.drag_start_y ∧
    (capturedStep s m).2.resize_start_x = s.resize_start_x ∧
    (capturedStep s m).2.resize_start_y = s.resize_start_y ∧
    (capturedStep s m).2.box_ = s.box_ ∧
    (capturedStep s m).2.box_window_ = s.box_window_ := by
  by_cases h1 : m.motion = Motion.Released <;>
  by_cases h2 : s.resize_bottom_right_ = true <;>
  by_cases h3 : s.drag_ = true <;>
  simp [capturedStep, h1, h2, h3]

/-- The uncaptured branch `uncapturedStep` never touches the geometry fields. -/
theorem uncapturedStep_geometry (s : WindowState) (env : Env) (m : Mouse) :
    (uncapturedStep s env m).2.left = s.left ∧
    (uncapturedStep s env m).2.top = s.top ∧
    (uncapturedStep s env m).2.width = s.width ∧
    (uncapturedStep s env m).2.height = s.height := by
  by_cases h1 : s.mouse_hover_ = false <;>
  by_cases h2 : env.captureOk = false <;>
  by_cases h3 : m.button = Button.Left ∧ m.motion = Motion.Pressed <;>
  simp [uncapturedStep, h1, h2, h3]

/-- C3 counterexample: press `s0` at (5,5) (a drag gesture starts), then
release at (7,6).  The handler drops the capture token and reports handled,
but the dragging flag is still true afterwards — the release branch
(lines 133-137) does not clear the gesture flags. -/
theorem release_does_not_clear_drag_flag :
    ((s0.onEvent okEnv (mkPress (5, 5))).2.captured_mouse_ = true ∧
     (s0.onEvent okEnv (mkPress (5, 5))).2.drag_ = true) ∧
    (((s0.onEvent okEnv (mkPress (5, 5))).2.onEvent okEnv (mkReleased (7, 6))).1 = true ∧
     ((s0.onEvent okEnv (mkPress (5, 5))).2.onEvent okEnv
        (mkReleased (7, 6))).2.captured_mouse_ = false ∧
     ((s0.onEvent okEnv (mkPress (5, 5))).2.onEvent okEnv
        (mkReleased (7, 6))).2.drag_ = true) := by
  decide

/-- C3 (amended): a button-release while a gesture is active releases the
capture token and is reported handled, but leaves both gesture flags (and
the geometry) exactly as they were; the flags are only overwritten by
later events. -/
theorem release_ends_capture_keeps_flags (s : WindowState) (env : Env) (m : Mouse)
    (hch : env.childHandled = false)
    (hc : s.captured_mouse_ = true) (hm : m.motion = Motion.Released) :
    (s.onEvent env (Event.mouse m)).1 = true ∧
    (s.onEvent env (Event.mouse m)).2.captured_mouse_ = false ∧
    (s.onEvent env (Event.mouse m)).2.drag_ = s.drag_ ∧
    (s.onEvent env (Event.mouse m)).2.resize_bottom_right_ = s.resize_bottom_right_ ∧
    (s.onEvent env (Event.mouse m)).2.left = s.left ∧
    (s.onEvent env (Event.mouse m)).2.top = s.top ∧
    (s.onEvent env (Event.mouse m)).2.width = s.width ∧
    (s.onEvent env (Event.mouse m)).2.height = s.height := by
  obtain ⟨a, b, c, d, -, -, -, -, -, -, -, -, e, f, g, h⟩ := releaseStep s env m hch hc hm
  exact ⟨a, b, c, d, e, f, g, h⟩

/-- A captured window state used as a concrete input: `s0` in the middle
of a drag gesture. -/
def sDrag : WindowState :=
  { s0 with captured_mouse_ := true, drag_ := true, mouse_hover_ := true }

/-- Witness for `release_ends_capture_keeps_flags` at `sDrag` and a
release at (7,6). -/
theorem release_ends_capture_keeps_flags_witness :
    okEnv.childHandled = false ∧
    sDrag.captured_mouse_ = true ∧
    (Mouse.mk 7 6 Button.Left Motion.Released).motion = Motion.Released ∧
    ((sDrag.onEvent okEnv (Event.mouse ⟨7, 6, Button.Left, Motion.Released⟩)).1 = true ∧
     (sDrag.onEvent okEnv
        (Event.mouse ⟨7, 6, Button.Left, Motion.Released⟩)).2.captured_mouse_ = false ∧
     (sDrag.onEvent okEnv
        (Event.mouse ⟨7, 6, Button.Left, Motion.Released⟩)).2.drag_ = sDrag.drag_ ∧
     (sDrag.onEvent okEnv
        (Event.mouse ⟨7, 6, Button.Left, Motion.Released⟩)).2.resize_bottom_right_
       = sDrag.resize_bottom_right_ ∧
     (sDrag.onEvent okEnv
        (Event.mouse ⟨7, 6, Button.Left, Motion.Released⟩)).2.left = sDrag.left ∧
     (sDrag.onEvent okEnv
        (Event.mouse ⟨7, 6, Button.Left, Motion.Released⟩)).2.top = sDrag.top ∧
     (sDrag.onEvent okEnv
        (Event.mouse ⟨7, 6, Button.Left, Motion.Released⟩)).2.width = sDrag.width ∧
     (sDrag.onEvent okEnv
        (Event.mouse ⟨7, 6, Button.Left, Motion.Released⟩)).2.height = sDrag.height) :=
  ⟨rfl, rfl, rfl,
   release_ends_capture_keeps_flags sDrag okEnv ⟨7, 6, Button.Left, Motion.Released⟩
     rfl rfl rfl⟩

/-- C4 counterexample: a reachable state (press on the body of `s0`, then
release) in which no gesture is in progress (the capture token is null)
while the dragging flag is still true — "neither flag is true otherwise"
fails. -/
theorem flags_outlive_capture_after_release :
    (runEvents s0 [(okEnv, mkPress (5, 5)), (okEnv, mkReleased (7, 6))]).captured_mouse_
      = false ∧
    (runEvents s0 [(okEnv, mkPress (5, 5)), (okEnv, mkReleased (7, 6))]).drag_ = true := by
  decide

/-- One step of `onEvent` preserves the gesture-flag invariant: while
captured exactly one of {drag, resize} is set, and the two flags are never
both set. -/
theorem onEvent_flags_inv (s : WindowState) (env : Env) (e : Event)
    (h1 : s.captured_mouse_ = true → s.drag_ = !s.resize_bottom_right_)
    (h2 : ¬(s.drag_ = true ∧ s.resize_bottom_right_ = true)) :
    ((s.onEvent env e).2.captured_mouse_ = true →
      (s.onEvent env e).2.drag_ = !(s.onEvent env e).2.resize_bottom_right_) ∧
    ¬((s.onEvent env e).2.drag_ = true ∧ (s.onEvent env e).2.resize_bottom_right_ = true) := by
  by_cases hch : env.childHandled = true
  · have heq : (s.onEvent env e).2 = s := by simp [WindowState.onEvent, hch]
    rw [heq]; exact ⟨h1, h2⟩
  · cases e with
    | other =>
      have heq : (s.onEvent env Event.other).2 = s := by simp [WindowState.onEvent, hch]
      rw [heq]; exact ⟨h1, h2⟩
    | mouse m =>
      rw [onEvent_mouse_eq s env m (by simpa using hch)]
      by_cases hcap : (updateHover s m).captured_mouse_ = true
      · rw [if_pos hcap]
        obtain ⟨-, -, -, cd, cr, -, -, -, -, -, -⟩ := capturedStep_core (updateHover s m) m
        have hcs : (capturedStep (updateHover s m) m).2.captured_mouse_ = true →
            s.captured_mouse_ = true := by
          by_cases h1m : m.motion = Motion.Released <;>
          by_cases h2m : s.resize_bottom_right_ = true <;>
          by_cases h3m : s.drag_ = true <;>
          simp [capturedStep, updateHover, h1m, h2m, h3m]
        constructor
        · intro hcc
          rw [cd, cr]
          exact h1 (hcs hcc)
        · intro hb
          rw [cd, cr] at hb
          exact h2 hb
      · rw [if_neg hcap]
        have hcap0 : s.captured_mouse_ = false := by
          simpa [updateHover] using hcap
        by_cases h1m : s.box_window_.Contain m.x m.y = true <;>
        by_cases h2m : env.captureOk = false <;>
        by_cases h3m : m.button = Button.Left ∧ m.motion = Motion.Pressed <;>
        by_cases h4m : ((decide (m.x = s.box_window_.x_max)
            && decide (m.y = s.box_window_.y_max)) && s.resize) = true <;>
        simp [uncapturedStep, updateHover, hcap0, h1m, h2m, h3m, h4m]

/-- C4 (amended): starting from any idle state (no flags set, no capture),
every reachable state satisfies: while the capture token is held exactly
one of {dragging, resizing} is true, and the two flags are never
simultaneously true — but after a release the last gesture's flag may
remain set even though no gesture is in progress. -/
theorem gesture_flag_invariant_reachable (s : WindowState) (evs : List (Env × Event))
    (hc : s.captured_mouse_ = false) (hd : s.drag_ = false)
    (hr : s.resize_bottom_right_ = false) :
    ((runEvents s evs).captured_mouse_ = true →
      (runEvents s evs).drag_ = !(runEvents s evs).resize_bottom_right_) ∧
    ¬((runEvents s evs).drag_ = true ∧ (runEvents s evs).resize_bottom_right_ = true) := by
  have base1 : s.captured_mouse_ = true → s.drag_ = !s.resize_bottom_right_ := by
    intro h; rw [h] at hc; exact absurd hc (by simp)
  have base2 : ¬(s.drag_ = true ∧ s.resize_bottom_right_ = true) := by
    intro h; rw [hd] at h; exact absurd h.1 (by simp)
  clear hc hd hr
  induction evs generalizing s with
  | nil => exact ⟨base1, base2⟩
  | cons p t ih =>
    have hstep := onEvent_flags_inv s p.1 p.2 base1 base2
    have : runEvents s (p :: t) = runEvents ((s.onEvent p.1 p.2).2) t := by
      simp [runEvents]
    rw [this]
    exact ih ((s.onEvent p.1 p.2).2) hstep.1 hstep.2

/-- Witness for `gesture_flag_invariant_reachable`: run the full
press-drag-release trace on `s0`. -/
theorem gesture_flag_invariant_reachable_witness :
    s0.captured_mouse_ = false ∧ s0.drag_ = false ∧ s0.resize_bottom_right_ = false ∧
    (((runEvents s0 [(okEnv, mkPress (5, 5)), (okEnv, mkMoved (9, 9)),
          (okEnv, mkReleased (9, 9))]).captured_mouse_ = true →
        (runEvents s0 [(okEnv, mkPress (5, 5)), (okEnv, mkMoved (9, 9)),
          (okEnv, mkReleased (9, 9))]).drag_
          = !(runEvents s0 [(okEnv, mkPress (5, 5)), (okEnv, mkMoved (9, 9)),
            (okEnv, mkReleased (9, 9))]).resize_bottom_right_) ∧
     ¬((runEvents s0 [(okEnv, mkPress (5, 5)), (okEnv, mkMoved (9, 9)),
          (okEnv, mkReleased (9, 9))]).drag_ = true ∧
       (runEvents s0 [(okEnv, mkPress (5, 5)), (okEnv, mkMoved (9, 9)),
          (okEnv, mkReleased (9, 9))]).resize_bottom_right_ = true)) :=
  ⟨rfl, rfl, rfl,
   gesture_flag_invariant_reachable s0
     [(okEnv, mkPress (5, 5)), (okEnv, mkMoved (9, 9)), (okEnv, mkReleased (9, 9))]
     rfl rfl rfl⟩

/-- Release branch of `capturedStep` leaves the geometry untouched. -/
theorem capturedStep_release_geometry (s : WindowState) (m : Mouse)
    (hm : m.motion = Motion.Released) :
    (capturedStep s m).2.left = s.left ∧ (capturedStep s m).2.top = s.top ∧
    (capturedStep s m).2.width = s.width ∧ (capturedStep s m).2.height = s.height := by
  unfold capturedStep
  rw [if_pos hm]
  exact ⟨rfl, rfl, rfl, rfl⟩

/-- Non-release branch of `capturedStep` always ends with the clamps:
width at least title length + 2 and height at least 2. -/
theorem capturedStep_clamped (s : WindowState) (m : Mouse)
    (hm : ¬(m.motion = Motion.Released)) :
    ((capturedStep s m).2.title.length : Int) + 2 ≤ (capturedStep s m).2.width ∧
    2 ≤ (capturedStep s m).2.height := by
  by_cases h2 : s.resize_bottom_right_ = true <;>
  by_cases h3 : s.drag_ = true <;>
  · unfold capturedStep
    rw [if_neg hm]
    simp [h2, h3]

/-- C5: whenever handling an event mutates any of the geometry fields
(left, top, width, height), the invariants width ≥ title length + 2 and
height ≥ 2 hold afterwards: the only mutating path is the captured branch,
which clamps unconditionally (lines 149-151). -/
theorem mutation_preserves_min_size (s : WindowState) (env : Env) (e : Event)
    (hmut : ¬((s.onEvent env e).2.left = s.left ∧ (s.onEvent env e).2.top = s.top ∧
      (s.onEvent env e).2.width = s.width ∧ (s.onEvent env e).2.height = s.height)) :
    ((s.onEvent env e).2.title.length : Int) + 2 ≤ (s.onEvent env e).2.width ∧
    2 ≤ (s.onEvent env e).2.height := by
  by_cases hch : env.childHandled = true
  · have heq : (s.onEvent env e).2 = s := by simp [WindowState.onEvent, hch]
    rw [heq] at hmut
    exact absurd ⟨rfl, rfl, rfl, rfl⟩ hmut
  · cases e with
    | other =>
      have heq : (s.onEvent env Event.other).2 = s := by simp [WindowState.onEvent, hch]
      rw [heq] at hmut
      exact absurd ⟨rfl, rfl, rfl, rfl⟩ hmut
    | mouse m =>
      rw [onEvent_mouse_eq s env m (by simpa using hch)] at hmut ⊢
      by_cases hcap : (updateHover s m).captured_mouse_ = true
      · rw [if_pos hcap] at hmut ⊢
        by_cases hm : m.motion = Motion.Released
        · obtain ⟨g1, g2, g3, g4⟩ := capturedStep_release_geometry (updateHover s m) m hm
          exact absurd ⟨g1, g2, g3, g4⟩ hmut
        · exact capturedStep_clamped (updateHover s m) m hm
      · rw [if_neg hcap] at hmut ⊢
        obtain ⟨g1, g2, g3, g4⟩ := uncapturedStep_geometry (updateHover s m) env m
        exact absurd ⟨g1, g2, g3, g4⟩ hmut

/-- Witness for `mutation_preserves_min_size`: a drag motion on `sDrag`
moves the window (left changes 5 → 7), and the clamps hold after it. -/
theorem mutation_preserves_min_size_witness :
    ¬((sDrag.onEvent okEnv (mkMoved (7, 7))).2.left = sDrag.left ∧
      (sDrag.onEvent okEnv (mkMoved (7, 7))).2.top = sDrag.top ∧
      (sDrag.onEvent okEnv (mkMoved (7, 7))).2.width = sDrag.width ∧
      (sDrag.onEvent okEnv (mkMoved (7, 7))).2.height = sDrag.height) ∧
    (((sDrag.onEvent okEnv (mkMoved (7, 7))).2.title.length : Int) + 2
      ≤ (sDrag.onEvent okEnv (mkMoved (7, 7))).2.width ∧
     2 ≤ (sDrag.onEvent okEnv (mkMoved (7, 7))).2.height) :=
  ⟨by decide, mutation_preserves_min_size sDrag okEnv (mkMoved (7, 7)) (by decide)⟩

/-- C6 counterexample: drag and release `s0` (leaving the dragging flag
set, see `release_does_not_clear_drag_flag`), then press inside the window
while capture acquisition fails.  The event is handled, but the dragging
flag is still set afterwards, contradicting "neither the dragging flag nor
the resizing flag is set afterward". -/
theorem capture_fail_press_keeps_stale_drag_flag :
    (runEvents s0 [(okEnv, mkPress (5, 5)),
      (okEnv, mkReleased (5, 5))]).captured_mouse_ = false ∧
    (runEvents s0 [(okEnv, mkPress (5, 5)),
      (okEnv, mkReleased (5, 5))]).box_window_.Contain 5 5 = true ∧
    ((runEvents s0 [(okEnv, mkPress (5, 5)),
        (okEnv, mkReleased (5, 5))]).onEvent failEnv (mkPress (5, 5))).1 = true ∧
    ((runEvents s0 [(okEnv, mkPress (5, 5)),
        (okEnv, mkReleased (5, 5))]).onEvent failEnv (mkPress (5, 5))).2.drag_ = true := by
  decide

/-- C6 (amended): a left press inside the window while no gesture is
active and capture acquisition fails is reported handled, starts no
gesture (capture stays null), clears the resizing flag, and leaves the
dragging flag unchanged (a stale value from an earlier gesture may
remain). -/
theorem capture_fail_press_handled_no_gesture (s : WindowState) (m : Mouse)
    (hc : s.captured_mouse_ = false)
    (hin : s.box_window_.Contain m.x m.y = true)
    (hb : m.button = Button.Left) (hm : m.motion = Motion.Pressed) :
    (s.onEvent failEnv (Event.mouse m)).1 = true ∧
    (s.onEvent failEnv (Event.mouse m)).2.captured_mouse_ = false ∧
    (s.onEvent failEnv (Event.mouse m)).2.resize_bottom_right_ = false ∧
    (s.onEvent failEnv (Event.mouse m)).2.drag_ = s.drag_ := by
  rw [onEvent_mouse_eq s failEnv m rfl]
  rw [if_neg (by simpa [updateHover] using hc)]
  simp [uncapturedStep, updateHover, hin, failEnv, hc]

/-- Witness for `capture_fail_press_handled_no_gesture` at `s0` and a
press at (5,5). -/
theorem capture_fail_press_handled_no_gesture_witness :
    s0.captured_mouse_ = false ∧
    s0.box_window_.Contain (5 : Int) (5 : Int) = true ∧
    (Mouse.mk 5 5 Button.Left Motion.Pressed).button = Button.Left ∧
    (Mouse.mk 5 5 Button.Left Motion.Pressed).motion = Motion.Pressed ∧
    ((s0.onEvent failEnv (Event.mouse ⟨5, 5, Button.Left, Motion.Pressed⟩)).1 = true ∧
     (s0.onEvent failEnv
        (Event.mouse ⟨5, 5, Button.Left, Motion.Pressed⟩)).2.captured_mouse_ = false ∧
     (s0.onEvent failEnv
        (Event.mouse ⟨5, 5, Button.Left, Motion.Pressed⟩)).2.resize_bottom_right_ = false ∧
     (s0.onEvent failEnv
        (Event.mouse ⟨5, 5, Button.Left, Motion.Pressed⟩)).2.drag_ = s0.drag_) :=
  ⟨rfl, by decide, rfl, rfl,
   capture_fail_press_handled_no_gesture s0 ⟨5, 5, Button.Left, Motion.Pressed⟩
     rfl (by decide) rfl rfl⟩

/-- C7 counterexample: during a captured drag on `sDrag` (hovering), a
motion to (100,100) — far outside `box_window_` — is handled, but the
hover flag changes from true to false: the hover flags are recomputed on
every mouse event, captured or not (lines 122-131). -/
theorem captured_event_updates_hover_flag :
    sDrag.captured_mouse_ = true ∧
    sDrag.mouse_hover_ = true ∧
    (sDrag.onEvent okEnv (mkMoved (100, 100))).1 = true ∧
    (sDrag.onEvent okEnv (mkMoved (100, 100))).2.mouse_hover_ = false := by
  decide

/-- C7 (amended): while a gesture is active, every mouse event at any
coordinates is reported handled, and the title, the resize option, the
gesture flags, the press-time snapshots and both boxes are unchanged; the
hover flags, however, are recomputed from the pointer position, and the
gesture-relevant geometry may change. -/
theorem captured_event_consumed_core_preserved (s : WindowState) (env : Env) (m : Mouse)
    (hc : s.captured_mouse_ = true) :
    (s.onEvent env (Event.mouse m)).1 = true ∧
    (s.onEvent env (Event.mouse m)).2.title = s.title ∧
    (s.onEvent env (Event.mouse m)).2.resize = s.resize ∧
    (s.onEvent env (Event.mouse m)).2.drag_ = s.drag_ ∧
    (s.onEvent env (Event.mouse m)).2.resize_bottom_right_ = s.resize_bottom_right_ ∧
    (s.onEvent env (Event.mouse m)).2.drag_start_x = s.drag_start_x ∧
    (s.onEvent env (Event.mouse m)).2.drag_start_y = s.drag_start_y ∧
    (s.onEvent env (Event.mouse m)).2.resize_start_x = s.resize_start_x ∧
    (s.onEvent env (Event.mouse m)).2.resize_start_y = s.resize_start_y ∧
    (s.onEvent env (Event.mouse m)).2.box_ = s.box_ ∧
    (s.onEvent env (Event.mouse m)).2.box_window_ = s.box_window_ := by
  by_cases hch : env.childHandled = true
  · have heq : s.onEvent env (Event.mouse m) = (true, s) := by
      simp [WindowState.onEvent, hch]
    rw [heq]
    exact ⟨rfl, rfl, rfl, rfl, rfl, rfl, rfl, rfl, rfl, rfl, rfl⟩
  · rw [onEvent_mouse_eq s env m (by simpa using hch)]
    rw [if_pos (show (updateHover s m).captured_mouse_ = true from hc)]
    exact capturedStep_core (updateHover s m) m

/-- Witness for `captured_event_consumed_core_preserved` at `sDrag` and a
motion to (100,100). -/
theorem captured_event_consumed_core_preserved_witness :
    sDrag.captured_mouse_ = true ∧
    ((sDrag.onEvent okEnv (Event.mouse ⟨100, 100, Button.Left, Motion.Moved⟩)).1 = true ∧
     (sDrag.onEvent okEnv
        (Event.mouse ⟨100, 100, Button.Left, Motion.Moved⟩)).2.title = sDrag.title ∧
     (sDrag.onEvent okEnv
        (Event.mouse ⟨100, 100, Button.Left, Motion.Moved⟩)).2.resize = sDrag.resize ∧
     (sDrag.onEvent okEnv
        (Event.mouse ⟨100, 100, Button.Left, Motion.Moved⟩)).2.drag_ = sDrag.drag_ ∧
     (sDrag.onEvent okEnv
        (Event.mouse ⟨100, 100, Button.Left, Motion.Moved⟩)).2.resize_bottom_right_
       = sDrag.resize_bottom_right_ ∧
     (sDrag.onEvent okEnv
        (Event.mouse ⟨100, 100, Button.Left, Motion.Moved⟩)).2.drag_start_x
       = sDrag.drag_start_x ∧
     (sDrag.onEvent okEnv
        (Event.mouse ⟨100, 100, Button.Left, Motion.Moved⟩)).2.drag_start_y
       = sDrag.drag_start_y ∧
     (sDrag.onEvent okEnv
        (Event.mouse ⟨100, 100, Button.Left, Motion.Moved⟩)).2.resize_start_x
       = sDrag.resize_start_x ∧
     (sDrag.onEvent okEnv
        (Event.mouse ⟨100, 100, Button.Left, Motion.Moved⟩)).2.resize_start_y
       = sDrag.resize_start_y ∧
     (sDrag.onEvent okEnv
        (Event.mouse ⟨100, 100, Button.Left, Motion.Moved⟩)).2.box_ = sDrag.box_ ∧
     (sDrag.onEvent okEnv
        (Event.mouse ⟨100, 100, Button.Left, Motion.Moved⟩)).2.box_window_
       = sDrag.box_window_) :=
  ⟨rfl,
   captured_event_consumed_core_preserved sDrag okEnv
     ⟨100, 100, Button.Left, Motion.Moved⟩ rfl⟩

/-- C10: during a captured drag (and not resize), a non-release mouse
event sets left/top directly to pointer position minus the snapshotted
offset minus `box_`'s origin — no clamping, so left/top can become
arbitrarily negative — while in the same branch width and height are
re-clamped to their minimums even though this is a pure drag. -/
theorem drag_position_unclamped_size_reclamped (s : WindowState) (env : Env) (m : Mouse)
    (hch : env.childHandled = false) (hc : s.captured_mouse_ = true)
    (hd : s.drag_ = true) (hr : s.resize_bottom_right_ = false)
    (hm : ¬(m.motion = Motion.Released)) :
    (s.onEvent env (Event.mouse m)).2.left = m.x - s.drag_start_x - s.box_.x_min ∧
    (s.onEvent env (Event.mouse m)).2.top = m.y - s.drag_start_y - s.box_.y_min ∧
    (s.onEvent env (Event.mouse m)).2.width = max s.width ((s.title.length : Int) + 2) ∧
    (s.onEvent env (Event.mouse m)).2.height = max s.height 2 := by
  simp [WindowState.onEvent, updateHover, capturedStep, hch, hc, hd, hr, hm]

/-- Witness for `drag_position_unclamped_size_reclamped`: a drag state
with width 1 (below minimum) and a motion to (-1000, -500): left/top
become -1000 and -500 (no clamp), while width is pulled up to the minimum
4 by the re-clamp. -/
theorem drag_position_unclamped_size_reclamped_witness :
    okEnv.childHandled = false ∧
    ({ sDrag with width := 1 } : WindowState).captured_mouse_ = true ∧
    ({ sDrag with width := 1 } : WindowState).drag_ = true ∧
    ({ sDrag with width := 1 } : WindowState).resize_bottom_right_ = false ∧
    ¬((Mouse.mk (-1000) (-500) Button.Left Motion.Moved).motion = Motion.Released) ∧
    (({ sDrag with width := 1 } : WindowState).onEvent okEnv
        (Event.mouse ⟨-1000, -500, Button.Left, Motion.Moved⟩)).2.left
      = (-1000) - ({ sDrag with width := 1 } : WindowState).drag_start_x
        - ({ sDrag with width := 1 } : WindowState).box_.x_min ∧
    (({ sDrag with width := 1 } : WindowState).onEvent okEnv
        (Event.mouse ⟨-1000, -500, Button.Left, Motion.Moved⟩)).2.top
      = (-500) - ({ sDrag with width := 1 } : WindowState).drag_start_y
        - ({ sDrag with width := 1 } : WindowState).box_.y_min ∧
    (({ sDrag with width := 1 } : WindowState).onEvent okEnv
        (Event.mouse ⟨-1000, -500, Button.Left, Motion.Moved⟩)).2.width
      = max ({ sDrag with width := 1 } : WindowState).width
          ((({ sDrag with width := 1 } : WindowState).title.length : Int) + 2) ∧
    (({ sDrag with width := 1 } : WindowState).onEvent okEnv
        (Event.mouse ⟨-1000, -500, Button.Left, Motion.Moved⟩)).2.height
      = max ({ sDrag with width := 1 } : WindowState).height 2 := by
  refine ⟨rfl, rfl, rfl, rfl, by decide, ?_⟩
  have := drag_position_unclamped_size_reclamped ({ sDrag with width := 1 }) okEnv
    ⟨-1000, -500, Button.Left, Motion.Moved⟩ rfl rfl rfl rfl (by decide)
  exact this

/-- Cells painted by the first sweep of `DropShadowDecorator::Render`
(lines 42-47): `for (y = y_min; y <= y_max; ++y)` paint `(x_max+1, y+1)`. -/
def rightShadowCells (b : Box) : List (Int × Int) :=
  (List.range (b.y_max + 1 - b.y_min).toNat).map
    (fun (i : Nat) => (b.x_max + 1, b.y_min + (i : Int) + 1))

/-- Cells painted by the second sweep of `DropShadowDecorator::Render`
(lines 51-56): `for (x = x_min; x < x_max; ++x)` paint `(x+1, y_max+1)` —
the loop stops one short of `x_max` because the right sweep already
painted the bottom-right corner. -/
def bottomShadowCells (b : Box) : List (Int × Int) :=
  (List.range (b.x_max - b.x_min).toNat).map
    (fun (i : Nat) => (b.x_min + (i : Int) + 1, b.y_max + 1))

/-- All cells painted by `DropShadowDecorator::Render`, in paint order. -/
def dropShadowCells (b : Box) : List (Int × Int) :=
  rightShadowCells b ++ bottomShadowCells b

/-- The right sweep paints exactly column `x_max+1`, rows `y_min+1`
through `y_max+1` inclusive. -/
theorem mem_rightShadowCells (b : Box) (p : Int × Int) :
    p ∈ rightShadowCells b ↔
      (p.1 = b.x_max + 1 ∧ b.y_min + 1 ≤ p.2 ∧ p.2 ≤ b.y_max + 1) := by
  unfold rightShadowCells
  simp only [List.mem_map, List.mem_range]
  constructor
  · rintro ⟨i, hi, heq⟩
    have h1 : b.x_max + 1 = p.1 := congrArg Prod.fst heq
    have h2 : b.y_min + (i : Int) + 1 = p.2 := congrArg Prod.snd heq
    exact ⟨h1.symm, by omega, by omega⟩
  · rintro ⟨h1, h2, h3⟩
    refine ⟨(p.2 - b.y_min - 1).toNat, by omega, ?_⟩
    exact Prod.ext_iff.mpr ⟨h1.symm,
      show b.y_min + ((p.2 - b.y_min - 1).toNat : Int) + 1 = p.2 by omega⟩

/-- The bottom sweep paints exactly row `y_max+1`, columns `x_min+1` up to
but excluding `x_max+1`. -/
theorem mem_bottomShadowCells (b : Box) (p : Int × Int) :
    p ∈ bottomShadowCells b ↔
      (p.2 = b.y_max + 1 ∧ b.x_min + 1 ≤ p.1 ∧ p.1 < b.x_max + 1) := by
  unfold bottomShadowCells
  simp only [List.mem_map, List.mem_range]
  constructor
  · rintro ⟨i, hi, heq⟩
    have h1 : b.x_min + (i : Int) + 1 = p.1 := congrArg Prod.fst heq
    have h2 : b.y_max + 1 = p.2 := congrArg Prod.snd heq
    exact ⟨h2.symm, by omega, by omega⟩
  · rintro ⟨h1, h2, h3⟩
    refine ⟨(p.1 - b.x_min - 1).toNat, by omega, ?_⟩
    exact Prod.ext_iff.mpr
      ⟨show b.x_min + ((p.1 - b.x_min - 1).toNat : Int) + 1 = p.1 by omega, h1.symm⟩

/-- An element of a duplicate-free list is counted exactly once. -/
theorem count_one_nodup {α : Type} [BEq α] [LawfulBEq α] {l : List α} {a : α}
    (hnd : l.Nodup) (hm : a ∈ l) : l.count a = 1 := by
  induction l with
  | nil => cases hm
  | cons c t ih =>
    rw [List.count_cons]
    rcases List.mem_cons.mp hm with rfl | hmt
    · rw [List.count_eq_zero.mpr (List.nodup_cons.mp hnd).1]
      simp
    · have hct : c ∉ t := (List.nodup_cons.mp hnd).1
      have hne : ¬(c == a) = true := fun hbeq => hct ((eq_of_beq hbeq) ▸ hmt)
      rw [ih (List.nodup_cons.mp hnd).2 hmt]
      simp [hne]

/-- The right sweep never paints the same cell twice. -/
theorem rightShadowCells_nodup (b : Box) : (rightShadowCells b).Nodup := by
  unfold rightShadowCells
  have hinj : Function.Injective
      (fun i : Nat => ((b.x_max + 1 : Int), b.y_min + (i : Int) + 1)) := by
    intro i j hij
    have h2 : b.y_min + (i : Int) + 1 = b.y_min + (j : Int) + 1 := congrArg Prod.snd hij
    omega
  exact List.Nodup.map hinj (List.nodup_range _)

/-- C8: whenever the window is rendered with width > 0 and height > 0 (so
the decorated element's recorded box is non-degenerate), a drop shadow is
painted, and the bottom-right corner shadow cell `(x_max+1, y_max+1)` is
painted exactly once: it lies in the right-side sweep (column `x_max+1`,
rows `y_min+1` .. `y_max+1`) and not in the bottom sweep (row `y_max+1`,
columns strictly below `x_max+1`). -/
theorem drop_shadow_corner_once (b : Box) (w h : Int)
    (hw : 0 < w) (hh : 0 < h)
    (hbx : b.x_max = b.x_min + w - 1) (hby : b.y_max = b.y_min + h - 1) :
    dropShadowCells b ≠ [] ∧
    (dropShadowCells b).count (b.x_max + 1, b.y_max + 1) = 1 ∧
    ((b.x_max + 1, b.y_max + 1) ∈ rightShadowCells b ∧
     (b.x_max + 1, b.y_max + 1) ∉ bottomShadowCells b) ∧
    (∀ p : Int × Int, p ∈ rightShadowCells b ↔
      (p.1 = b.x_max + 1 ∧ b.y_min + 1 ≤ p.2 ∧ p.2 ≤ b.y_max + 1)) ∧
    (∀ p : Int × Int, p ∈ bottomShadowCells b ↔
      (p.2 = b.y_max + 1 ∧ b.x_min + 1 ≤ p.1 ∧ p.1 < b.x_max + 1)) := by
  have hcorR : (b.x_max + 1, b.y_max + 1) ∈ rightShadowCells b :=
    (mem_rightShadowCells b _).mpr ⟨rfl, by omega, by omega⟩
  have hcorB : (b.x_max + 1, b.y_max + 1) ∉ bottomShadowCells b := by
    intro hmem
    have := (mem_bottomShadowCells b _).mp hmem
    omega
  refine ⟨?_, ?_, ⟨hcorR, hcorB⟩, mem_rightShadowCells b, mem_bottomShadowCells b⟩
  · exact List.ne_nil_of_mem (List.mem_append.mpr (Or.inl hcorR))
  · rw [dropShadowCells, List.count_append,
      count_one_nodup (rightShadowCells_nodup b) hcorR,
      List.count_eq_zero.mpr hcorB]

/-- Witness for `drop_shadow_corner_once`: a 5×3 window whose decorated
element spans (0,0)-(4,2). -/
theorem drop_shadow_corner_once_witness :
    (0 : Int) < 5 ∧ (0 : Int) < 3 ∧
    (Box.mk 0 4 0 2).x_max = (Box.mk 0 4 0 2).x_min + 5 - 1 ∧
    (Box.mk 0 4 0 2).y_max = (Box.mk 0 4 0 2).y_min + 3 - 1 ∧
    (dropShadowCells (Box.mk 0 4 0 2) ≠ [] ∧
     (dropShadowCells (Box.mk 0 4 0 2)).count
        ((Box.mk 0 4 0 2).x_max + 1, (Box.mk 0 4 0 2).y_max + 1) = 1 ∧
     (((Box.mk 0 4 0 2).x_max + 1, (Box.mk 0 4 0 2).y_max + 1)
        ∈ rightShadowCells (Box.mk 0 4 0 2) ∧
      ((Box.mk 0 4 0 2).x_max + 1, (Box.mk 0 4 0 2).y_max + 1)
        ∉ bottomShadowCells (Box.mk 0 4 0 2)) ∧
     (∀ p : Int × Int, p ∈ rightShadowCells (Box.mk 0 4 0 2) ↔
       (p.1 = (Box.mk 0 4 0 2).x_max + 1 ∧ (Box.mk 0 4 0 2).y_min + 1 ≤ p.2 ∧
        p.2 ≤ (Box.mk 0 4 0 2).y_max + 1)) ∧
     (∀ p : Int × Int, p ∈ bottomShadowCells (Box.mk 0 4 0 2) ↔
       (p.2 = (Box.mk 0 4 0 2).y_max + 1 ∧ (Box.mk 0 4 0 2).x_min + 1 ≤ p.1 ∧
        p.1 < (Box.mk 0 4 0 2).x_max + 1))) :=
  ⟨by decide, by decide, by decide, by decide,
   drop_shadow_corner_once (Box.mk 0 4 0 2) 5 3
     (by decide) (by decide) (by decide) (by decide)⟩

/-- Modelled from the spec: the element/render-tree primitives used by
`PositionAndSize` (`size(WIDTH|HEIGHT, EQUAL, _)`, `emptyElement`, `hbox`,
`vbox`) are not part of this repository's sources; per §4.2 the wrapper
"first fixes the content's size to (width, height), then prepends `top`
blank rows above and `left` blank columns to the left".  A visual is
modelled as the grid of painted cells, indexed by column and row. -/
def Visual : Type := Int → Int → Bool

/-- Modelled from the spec: `element |= size(WIDTH, EQUAL, w)` — the
content is fixed to exactly `w` columns: cells outside them are blank. -/
def sizeEqualW (w : Int) (v : Visual) : Visual :=
  fun x y => if 0 ≤ x ∧ x < w then v x y else false

/-- Modelled from the spec: `element |= size(HEIGHT, EQUAL, h)`. -/
def sizeEqualH (h : Int) (v : Visual) : Visual :=
  fun x y => if 0 ≤ y ∧ y < h then v x y else false

/-- Modelled from the spec: `hbox({padding_left, element})` with a blank
padding of `left` columns — the element's cells shift right by `left`. -/
def hshift (left : Int) (v : Visual) : Visual :=
  fun x y => v (x - left) y

/-- Modelled from the spec: `vbox({padding_top, ...})` with a blank
padding of `top` rows — the cells shift down by `top`. -/
def vshift (top : Int) (v : Visual) : Visual :=
  fun x y => v x (y - top)

/-- Source `PositionAndSize(left, top, width, height)` (lines 15-31): size the
element to (width, height), then pad by `left` columns and `top` rows via
nested hbox/vbox. -/
def PositionAndSize (left top width height : Int) (element : Visual) : Visual :=
  vshift top (hshift left (sizeEqualH height (sizeEqualW width element)))

/-- The everywhere-painted content, a concrete input. -/
def vAll : Visual := fun _ _ => true

/-- C9 counterexample: with left = 1, top = 0, width = height = 1 and
fully painted content, one application paints cell (1,0) but a second
application of the same wrapper leaves it blank (the padding and the size
constraint are applied twice), so the positioner is not idempotent. -/
theorem positionAndSize_not_idempotent :
    PositionAndSize 1 0 1 1 (PositionAndSize 1 0 1 1 vAll)
      ≠ PositionAndSize 1 0 1 1 vAll := by
  intro heq
  have h10 : PositionAndSize 1 0 1 1 (PositionAndSize 1 0 1 1 vAll) 1 0
      = PositionAndSize 1 0 1 1 vAll 1 0 := by
    rw [heq]
  have : ¬(PositionAndSize 1 0 1 1 (PositionAndSize 1 0 1 1 vAll) 1 0
      = PositionAndSize 1 0 1 1 vAll 1 0) := by decide
  exact this h10

/-- C9 (amended): the position-and-size wrapper is idempotent exactly in
the no-padding case: for left = 0 and top = 0, applying it twice with the
same width/height to the same content yields the same visual; with nonzero
left or top the second application pads and crops again. -/
theorem positionAndSize_idempotent_at_origin (width height : Int) (v : Visual) :
    PositionAndSize 0 0 width height (PositionAndSize 0 0 width height v)
      = PositionAndSize 0 0 width height v := by
  funext x y
  simp only [PositionAndSize, vshift, hshift, sizeEqualH, sizeEqualW, sub_zero]
  by_cases hx : 0 ≤ x ∧ x < width <;> by_cases hy : 0 ≤ y ∧ y < height <;>
    simp [hx, hy]
